import Mathlib

/-!
Verification of the Query Interpretation & Forecast Orchestration subsystem
(`src/retrieval/rag_manager.py`, shipped as compiled bytecode in
`src/unnamed/part_016`) against its natural-language specification.

The embedding below mirrors the four methods of `RAGManager`
(`_initialize_components`, `process_query`, `_process_crime_query`,
`format_for_llm`).  Python dictionaries with optional keys are modelled as
structures with `Option` fields; `dict.get(key, default)` is `Option.getD`;
Python floats are modelled as rationals; code that may raise returns
`Except String _`.  The collaborators that live outside `src/`
(`CrimeQueryProcessor`, `CrimeModelRAG`) are abstract function records, and
the parts of the system whose code is absent from `src/` (the context
merge of the tracker, the weekly forecast grid) are modelled from the
spec, as marked on their doc comments.
-/

set_option maxRecDepth 100000

namespace RagVerify

/-- The `using_default` sub-dictionary produced by the extractor: per-field
flags saying a default value would be used (the field is unresolved).
Keys may be absent, hence `Option`. -/
structure UDFlags where
  coordinates : Option Bool
  time : Option Bool
  date : Option Bool
deriving DecidableEq, Repr

/-- `params.get("using_default", {})` is duck-typed in the source: it is
either a plain bool or a dictionary of flags (`isinstance(using_default, bool)`
branch in `_process_crime_query`). -/
inductive UsingDefault where
  | ofBool (b : Bool)
  | ofFlags (f : UDFlags)
deriving DecidableEq, Repr

/-- The parameter dictionary returned by
`CrimeQueryProcessor.extract_parameters`.  Only the keys read by
`RAGManager` are modelled.  `date`, `time`, `longitude`, `latitude` are
read with `params[...]` only on the `complete` path, where the extractor
guarantees their presence, so they are plain fields here. -/
structure Params where
  complete : Option Bool
  is_weekly_forecast : Option Bool
  using_default : Option UsingDefault
  date : String
  time : Nat
  longitude : Rat
  latitude : Rat
deriving DecidableEq, Repr

/-- The `follow_up` sub-dictionary of a result. -/
structure FollowUp where
  missing_info : List String
  question : String
deriving DecidableEq, Repr

/-- The result dictionary built by `_process_crime_query`.  Keys that the
code only sometimes sets are `Option` fields (`'key' in rag_result` is
`≠ none`). -/
structure RagResult where
  type : String
  complete : Bool
  params : Params
  weekly_forecast : Option Bool := none
  probability : Option Rat := none
  explanation : Option String := none
  error : Option String := none
  follow_up : Option FollowUp := none
deriving DecidableEq, Repr

/-- The crime model object (`CrimeModelRAG`, outside `src/`), reduced to the
two methods `RAGManager` calls.  `predict_crime_probability` may raise,
which the orchestrator catches (`except Exception as e`), hence `Except`. -/
structure CrimeModel where
  predict_crime_probability : String → Nat → Rat → Rat → Except String Rat
  generate_explanation : Rat → Params → String

/-- The query processor object (`CrimeQueryProcessor`, outside `src/`),
reduced to the two methods `RAGManager` calls. -/
structure QueryProcessor where
  is_crime_prediction_query : String → Bool
  extract_parameters : String → Params

/-! ### String constants of `_process_crime_query` (verbatim from the source) -/

def weeklyLocationQuestion : String :=
  "To generate a weekly crime forecast, I need a specific location. Please provide a location by city name or coordinates. For example: 'Generate a weekly forecast for downtown Chicago' or 'Give me a weekly forecast for 41.8781, -87.6298'"

def locExample1 : String := "'What's the crime risk at 41.8781, -87.6298?'"
def locExample2 : String := "'Is it safe in downtown Chicago?'"
def timeExample1 : String := "'What's the crime risk at 10pm?'"
def timeExample2 : String := "'Is it safe during the morning?'"
def dateExample1 : String := "'What's the crime risk tomorrow?'"
def dateExample2 : String := "'Is it safe on Friday?'"

def genericQuestion : String :=
  "To predict crime risk, I need more specific information. Please provide location, date, and time details."

/-! ### `RAGManager._process_crime_query` -/

/-- The `missing_info` list built in the incomplete branch of
`_process_crime_query`: `'location coordinates'` from the coordinates flag
(or from `using_default` being the bool `True`), and `'time'` / `'date'`
only when additionally `not is_weekly_forecast`. -/
def missingInfoOf (ud : UsingDefault) (is_weekly_forecast : Bool) : List String :=
  match ud with
  | .ofBool b => if b then ["location coordinates"] else []
  | .ofFlags f =>
      (if f.coordinates.getD false then ["location coordinates"] else [])
      ++ (if f.time.getD false && !is_weekly_forecast then ["time"] else [])
      ++ (if f.date.getD false && !is_weekly_forecast then ["date"] else [])

/-- The `examples` list of the incomplete branch: two worked examples are
appended per missing field, in location / time / date order. -/
def examplesOf (missing_info : List String) : List String :=
  (if missing_info.contains "location coordinates" then [locExample1, locExample2] else [])
  ++ (if missing_info.contains "time" then [timeExample1, timeExample2] else [])
  ++ (if missing_info.contains "date" then [dateExample1, dateExample2] else [])

/-- The `follow_up_question` string chosen in the incomplete branch:
the canned weekly clarification when a weekly request lacks a location,
else the enumerating template (whose `example_text` is
`' or '.join(examples[:2])`), else a generic fallback. -/
def followUpQuestionOf (missing_info : List String) (is_weekly_forecast : Bool) : String :=
  if is_weekly_forecast && missing_info.contains "location coordinates" then
    weeklyLocationQuestion
  else if !missing_info.isEmpty then
    let examples := examplesOf missing_info
    let example_text := String.intercalate " or " (examples.take 2)
    "To predict crime risk, I need more information about: "
      ++ String.intercalate ", " missing_info
      ++ ". Please provide these details. For example: " ++ example_text
  else
    genericQuestion

/-- `RAGManager._process_crime_query` (returns the `(True, result)` pair;
the bool is always `True` in the source). -/
def processCrimeQuery (cm : CrimeModel) (qp : QueryProcessor) (query : String) :
    Bool × RagResult :=
  let params := qp.extract_parameters query
  let result : RagResult :=
    { type := "crime_prediction", complete := params.complete.getD false, params := params }
  let is_weekly_forecast := params.is_weekly_forecast.getD false
  if result.complete then
    -- try: weekly flag or predict+explain; except: record the message
    if is_weekly_forecast then
      (true, { result with weekly_forecast := some true })
    else
      match cm.predict_crime_probability params.date params.time params.longitude params.latitude with
      | .ok probability =>
          let explanation := cm.generate_explanation probability params
          (true, { result with probability := some probability, explanation := some explanation })
      | .error e =>
          (true, { result with error := some e, complete := false })
  else
    let using_default := params.using_default.getD (.ofFlags ⟨none, none, none⟩)
    let missing_info := missingInfoOf using_default is_weekly_forecast
    let question := followUpQuestionOf missing_info is_weekly_forecast
    (true, { result with follow_up := some ⟨missing_info, question⟩ })

/-! ### `RAGManager.process_query` -/

/-- `RAGManager.process_query`: guarded by the truthiness of
`self.crime_model` and `self.query_processor` and by
`is_crime_prediction_query`; otherwise `(False, None)`. -/
def processQuery (crime_model : Option CrimeModel) (query_processor : Option QueryProcessor)
    (query : String) : Bool × Option RagResult :=
  match crime_model, query_processor with
  | some cm, some qp =>
      if qp.is_crime_prediction_query query then
        let r := processCrimeQuery cm qp query
        (r.1, some r.2)
      else (false, none)
  | _, _ => (false, none)

/-! ### `RAGManager.format_for_llm` -/

/-- Round a rational to the nearest integer, ties to even (the rounding of
Python's fixed-point string formatting; reals are modelled as rationals). -/
def roundHalfEven (q : Rat) : Int :=
  let f : Int := q.floor
  let frac : Rat := q - (f : Rat)
  if frac < 1/2 then f
  else if 1/2 < frac then f + 1
  else if f % 2 = 0 then f else f + 1

/-- The `:.1f` fixed-point rendering used in
`f"Crime probability: {probability_percent:.1f}%"`. -/
def formatFixed1 (q : Rat) : String :=
  let n : Int := roundHalfEven (q * 10)
  let sign := if n < 0 then "-" else ""
  let a := n.natAbs
  sign ++ toString (a / 10) ++ "." ++ toString (a % 10)

def contextHeader : String := "### Crime Prediction Context:\n"

def doNotPredictLine : String :=
  "IMPORTANT: DO NOT MAKE A PREDICTION. Required parameters are missing.\n\n"

def doNotMakeUpLine : String :=
  "Do not make up any crime probabilities. Ask the user for the missing information.\n"

def probabilityImportantSuffix : String :=
  "% (IMPORTANT: always present this exact percentage value in your response)\n\n"

def weeklyForecastNote : String :=
  "This is a weekly forecast request. Note that for weekly forecasts, only location is required.\nInform the user that the weekly forecast is being processed and will be displayed shortly.\n"

def importantInstructions : String :=
  "IMPORTANT INSTRUCTIONS:\n1. When reporting the probability in your response, always use the exact percentage value provided above.\n2. Never convert to a different scale or format.\n3. If any parameters are missing, ask for them instead of providing a prediction.\n4. Never make up crime probabilities - only use the exact values provided.\n"

/-- `RAGManager.format_for_llm`.  The `follow_up` branch returns early; the
weekly branch returns early without the closing instruction block. -/
def formatForLlm (rag_result : RagResult) : String :=
  let formatted_text := contextHeader
  match rag_result.follow_up with
  | some fu =>
      formatted_text ++ doNotPredictLine
        ++ "Missing information: " ++ String.intercalate ", " fu.missing_info ++ "\n"
        ++ "Follow-up needed: " ++ fu.question ++ "\n\n"
        ++ doNotMakeUpLine
  | none =>
      let t1 :=
        match rag_result.probability with
        | some probability =>
            let probability_percent := probability * 100
            formatted_text ++ "Crime probability: " ++ formatFixed1 probability_percent
              ++ probabilityImportantSuffix
        | none => formatted_text
      let t2 :=
        match rag_result.explanation with
        | some e => t1 ++ e ++ "\n\n"
        | none => t1
      if rag_result.weekly_forecast.getD false then
        t2 ++ weeklyForecastNote
      else
        t2 ++ importantInstructions

/-! ### `RAGManager._initialize_components` -/

/-- The environment of `_initialize_components`: the filesystem facts and
external constructors the method consults.  `grandparent` stands for
`os.path.dirname(os.path.dirname(os.getcwd()))`; `loadModel` is the
`CrimeModelRAG` constructor, which may raise; `queryProcessor` is the
`CrimeQueryProcessor()` instance (its constructor is outside `src/` and
treated as total). -/
structure InitEnv where
  cwd : String
  grandparent : String
  config_model_path : Option String
  pathExists : String → Bool
  loadModel : String → Except String CrimeModel
  queryProcessor : QueryProcessor

/-- `os.path.join` of two components (separator fixed to `/`; the claims do
not depend on the separator). -/
def pjoin (a b : String) : String := a ++ "/" ++ b

/-- The four well-known search locations, in source order. -/
def defaultPaths (env : InitEnv) : List String :=
  [ pjoin env.cwd "crime_model.pkl",
    pjoin (pjoin env.cwd "models") "crime_model.pkl",
    pjoin (pjoin (pjoin env.cwd "data") "models") "crime_model.pkl",
    pjoin (pjoin env.grandparent "models") "crime_model.pkl" ]

/-- Python truthiness of `config.get("model", {}).get("crime_model_path")`:
a present, non-empty string. -/
def truthyPath : Option String → Bool
  | some s => !(s == "")
  | none => false

/-- `possible_paths` after the conditional `possible_paths.insert(0, model_path)`. -/
def possiblePaths (env : InitEnv) : List String :=
  if truthyPath env.config_model_path then
    env.config_model_path.getD "" :: defaultPaths env
  else defaultPaths env

/-- The `for path in possible_paths: if os.path.exists(path): model_path = path; break`
loop: the first existing path, if any. -/
def selectedModelPath (env : InitEnv) : Option String :=
  (possiblePaths env).find? env.pathExists

/-- The component state `_initialize_components` leaves on the manager. -/
structure RAGState where
  crime_model : Option CrimeModel
  query_processor : Option QueryProcessor

/-- `RAGManager._initialize_components`: selects the first existing search
path; on no path or on a load failure (the `except Exception` branch) the
model is `None` and the query processor is still constructed; the method
never propagates an exception (it is total here by construction, matching
the blanket `try/except Exception`). -/
def initializeComponents (env : InitEnv) : RAGState :=
  match selectedModelPath env with
  | none => { crime_model := none, query_processor := some env.queryProcessor }
  | some p =>
      match env.loadModel p with
      | .ok m => { crime_model := some m, query_processor := some env.queryProcessor }
      | .error _ => { crime_model := none, query_processor := some env.queryProcessor }

/-! ### Conversational context merge (spec-modelled) -/

/-- Modelled from the spec: the `ParameterSet` of §3 for the Conversational
Context Tracker, whose merge code (`CrimeQueryProcessor` context logic) is
not under `src/`.  Every field is optional ("any subset of fields may be
present"); an empty set has every field absent. -/
structure ParameterSet where
  latitude : Option Rat
  longitude : Option Rat
  placeName : Option String
  date : Option String
  time : Option Nat
  isWeeklyForecast : Option Bool
  hourFilter : Option Nat
deriving DecidableEq, Repr

/-- Modelled from the spec: the per-field merge policy of §4.4 — a
non-absent new value overwrites; an omitted field keeps the remembered
value exactly when the turn is a follow-up; otherwise it resolves to
absent. -/
def mergeField {α : Type} (newv old : Option α) (isFollowUp : Bool) : Option α :=
  match newv with
  | some v => some v
  | none => if isFollowUp then old else none

/-- Modelled from the spec: `merge(newSet, rememberedSet, isFollowUp)` of
§4.4, applied field by field. -/
def merge (n o : ParameterSet) (isFollowUp : Bool) : ParameterSet :=
  { latitude := mergeField n.latitude o.latitude isFollowUp
    longitude := mergeField n.longitude o.longitude isFollowUp
    placeName := mergeField n.placeName o.placeName isFollowUp
    date := mergeField n.date o.date isFollowUp
    time := mergeField n.time o.time isFollowUp
    isWeeklyForecast := mergeField n.isWeeklyForecast o.isWeeklyForecast isFollowUp
    hourFilter := mergeField n.hourFilter o.hourFilter isFollowUp }

/-- The entirely empty `ParameterSet`. -/
def emptyParameterSet : ParameterSet :=
  { latitude := none, longitude := none, placeName := none, date := none,
    time := none, isWeeklyForecast := none, hourFilter := none }

/-! ### Weekly forecast grid (spec-modelled) -/

/-- Modelled from the spec: the Forecast Engine's grid construction of §4.6
(the engine's code is not under `src/`): exactly 7 calendar days from the
reference date; without an hour filter, samples every 6 hours (hours 0, 6,
12, 18 — 4 points per day); with a filter, exactly that hour once per day.
Days are day indices (`referenceDate + offset`); points are `(day, hour)`. -/
def weeklyGrid (referenceDate : Nat) (hourFilter : Option Nat) : List (Nat × Nat) :=
  match hourFilter with
  | none =>
      (List.range 7).flatMap (fun d => [0, 6, 12, 18].map (fun h => (referenceDate + d, h)))
  | some h => (List.range 7).map (fun d => (referenceDate + d, h))

/-! ### Substring helper (for stating "the question shows an example for field X") -/

def listPrefixEq : List Char → List Char → Bool
  | [], _ => true
  | _ :: _, [] => false
  | a :: as, b :: bs => a == b && listPrefixEq as bs

/-- `pat` occurs as a contiguous substring of `s`. -/
def containsSubstr (s pat : String) : Bool :=
  let sl := s.toList
  let pl := pat.toList
  (List.range (sl.length + 1)).any (fun i => listPrefixEq pl (sl.drop i))

end RagVerify

namespace RagVerify

/-! ### Demonstration instances (concrete collaborators for closed statements) -/

/-- A query processor that classifies every query as a crime-prediction
query and extracts a complete point-query parameter set. -/
def qpComplete : QueryProcessor :=
  { is_crime_prediction_query := fun _ => true
    extract_parameters := fun _ =>
      { complete := some true, is_weekly_forecast := some false, using_default := none,
        date := "2025-01-01", time := 22, longitude := -87, latitude := 41 } }

/-- A query processor whose extraction leaves all three of location, time
and date unresolved (all `using_default` flags set) on a point query. -/
def qpAllMissing : QueryProcessor :=
  { is_crime_prediction_query := fun _ => true
    extract_parameters := fun _ =>
      { complete := some false, is_weekly_forecast := some false,
        using_default := some (.ofFlags ⟨some true, some true, some true⟩),
        date := "", time := 0, longitude := 0, latitude := 0 } }

/-- Modelled from the spec: `CrimeModelRAG.generate_explanation` is not
under `src/`; §4.5 requires the explanation to be a deterministic template
string "that always restates the exact probability value used". -/
def generateExplanationSpec (p : Rat) (_params : Params) : String :=
  "Crime probability: " ++ formatFixed1 (p * 100) ++ "%."

/-- A crime model whose oracle always returns probability 1/4. -/
def cmQuarter : CrimeModel :=
  { predict_crime_probability := fun _ _ _ _ => .ok (1/4)
    generate_explanation := generateExplanationSpec }

/-! ### Claims -/

/-- C1 (amended): with no classifier artifact loaded (`crime_model = None`),
`process_query` returns `(False, None)` for every query — including
crime-prediction queries — so the query is silently treated as a
non-prediction query; no `ModelUnavailable` ("prediction unavailable")
result is ever surfaced by the orchestrator. -/
theorem processQuery_noModel_silent (query_processor : Option QueryProcessor) (query : String) :
    processQuery none query_processor query = (false, none) := by
  cases query_processor <;> rfl

/-- C1 counterexample: a concrete crime-prediction query (the processor
classifies it as one) with `crime_model = None` yields exactly
`(False, None)` — the claim's prohibited behavior — rather than any
user-visible `ModelUnavailable` result. -/
theorem processQuery_noModel_counterexample :
    qpComplete.is_crime_prediction_query "Is it safe at 41.8781, -87.6298 tonight?" = true
    ∧ processQuery none (some qpComplete) "Is it safe at 41.8781, -87.6298 tonight?"
        = (false, none) :=
  ⟨rfl, rfl⟩

/-- C7: the weekly grid spans exactly the 7 calendar days from the
reference date; with no hour filter it is exactly the 28 points at 6-hour
spacing (hours 0, 6, 12, 18 on each of the 7 days, 4 per day), and with an
hour filter it is exactly 7 points, one per day at the filtered hour. -/
theorem weeklyGrid_sizes (d h : Nat) :
    weeklyGrid d none =
      [(d, 0), (d, 6), (d, 12), (d, 18),
       (d + 1, 0), (d + 1, 6), (d + 1, 12), (d + 1, 18),
       (d + 2, 0), (d + 2, 6), (d + 2, 12), (d + 2, 18),
       (d + 3, 0), (d + 3, 6), (d + 3, 12), (d + 3, 18),
       (d + 4, 0), (d + 4, 6), (d + 4, 12), (d + 4, 18),
       (d + 5, 0), (d + 5, 6), (d + 5, 12), (d + 5, 18),
       (d + 6, 0), (d + 6, 6), (d + 6, 12), (d + 6, 18)]
    ∧ (weeklyGrid d none).length = 28
    ∧ weeklyGrid d (some h) =
        [(d, h), (d + 1, h), (d + 2, h), (d + 3, h), (d + 4, h), (d + 5, h), (d + 6, h)]
    ∧ (weeklyGrid d (some h)).length = 7 :=
  ⟨rfl, rfl, rfl, rfl⟩

/-- C8: whenever the result carries follow-up information, `format_for_llm`
returns (before ever reaching the probability branch) exactly the
follow-up prompt: the do-not-predict instruction, the enumerated missing
information and the follow-up question — so its output is independent of
any probability in the result and a probability figure and a follow-up
request never appear together in one formatted prompt. -/
theorem formatForLlm_followUp_early_return (rag : RagResult) (fu : FollowUp)
    (h : rag.follow_up = some fu) :
    formatForLlm rag =
      contextHeader ++ doNotPredictLine
        ++ "Missing information: " ++ String.intercalate ", " fu.missing_info ++ "\n"
        ++ "Follow-up needed: " ++ fu.question ++ "\n\n"
        ++ doNotMakeUpLine := by
  unfold formatForLlm
  rw [h]

/-- C8 witness: the early return evaluated on a concrete result that
carries both a probability and follow-up information. -/
theorem formatForLlm_followUp_witness :
    formatForLlm
        { type := "crime_prediction", complete := false,
          params := qpAllMissing.extract_parameters "q",
          probability := some (1/4),
          follow_up := some ⟨["time"], "When?"⟩ } =
      contextHeader ++ doNotPredictLine
        ++ "Missing information: " ++ String.intercalate ", " (FollowUp.mk ["time"] "When?").missing_info ++ "\n"
        ++ "Follow-up needed: " ++ (FollowUp.mk ["time"] "When?").question ++ "\n\n"
        ++ doNotMakeUpLine :=
  formatForLlm_followUp_early_return
    { type := "crime_prediction", complete := false,
      params := qpAllMissing.extract_parameters "q",
      probability := some (1/4),
      follow_up := some ⟨["time"], "When?"⟩ }
    ⟨["time"], "When?"⟩ rfl

end RagVerify

namespace RagVerify

/-! ### C2: missing-information enumeration and worked examples -/

/-- The follow-up question `_process_crime_query` builds when all three of
location, time and date are flagged missing on a point query. -/
def allMissingQuestion : String :=
  "To predict crime risk, I need more information about: location coordinates, time, date. Please provide these details. For example: 'What's the crime risk at 41.8781, -87.6298?' or 'Is it safe in downtown Chicago?'"

/-- C2 counterexample: on a point query with all three fields missing, the
emitted question's example text is only the two location examples joined
with " or " — no worked example for the missing `time` or `date` field
appears anywhere in the question, and there is no comma-joined
three-example form. -/
theorem followUp_examples_counterexample :
    (processCrimeQuery cmQuarter qpAllMissing "Is it safe?").2.follow_up =
      some ⟨["location coordinates", "time", "date"], allMissingQuestion⟩
    ∧ containsSubstr allMissingQuestion locExample1 = true
    ∧ containsSubstr allMissingQuestion locExample2 = true
    ∧ containsSubstr allMissingQuestion timeExample1 = false
    ∧ containsSubstr allMissingQuestion timeExample2 = false
    ∧ containsSubstr allMissingQuestion dateExample1 = false
    ∧ containsSubstr allMissingQuestion dateExample2 = false := by
  refine ⟨rfl, ?_, ?_, ?_, ?_, ?_, ?_⟩ <;> decide

/-- C2 (amended): for every incomplete point query
(`is_weekly_forecast = false`, `complete = false`, `using_default` flags
given), the emitted result enumerates exactly the flagged-missing fields
(location as a single item), comma-joined inside the question; and the
question's example text is the first two entries of the example list built
with two examples per missing field in location/time/date order — i.e.
both shown examples belong to the first missing field, joined with
" or "; there is never a comma-joined enumeration of examples. -/
theorem processCrimeQuery_missingInfo (cm : CrimeModel) (qp : QueryProcessor) (q : String)
    (c t d : Bool)
    (hc : (qp.extract_parameters q).complete = some false)
    (hw : (qp.extract_parameters q).is_weekly_forecast = some false)
    (hud : (qp.extract_parameters q).using_default = some (.ofFlags ⟨some c, some t, some d⟩)) :
    ∃ fu : FollowUp, (processCrimeQuery cm qp q).2.follow_up = some fu
      ∧ fu.missing_info = missingInfoOf (.ofFlags ⟨some c, some t, some d⟩) false
      ∧ ("location coordinates" ∈ fu.missing_info ↔ c = true)
      ∧ ("time" ∈ fu.missing_info ↔ t = true)
      ∧ ("date" ∈ fu.missing_info ↔ d = true)
      ∧ (fu.missing_info ≠ [] →
          fu.question =
            "To predict crime risk, I need more information about: "
              ++ String.intercalate ", " fu.missing_info
              ++ ". Please provide these details. For example: "
              ++ String.intercalate " or " ((examplesOf fu.missing_info).take 2))
      ∧ ((examplesOf fu.missing_info).take 2 =
            if c then [locExample1, locExample2]
            else if t then [timeExample1, timeExample2]
            else if d then [dateExample1, dateExample2]
            else []) := by
  refine ⟨⟨missingInfoOf (.ofFlags ⟨some c, some t, some d⟩) false,
           followUpQuestionOf (missingInfoOf (.ofFlags ⟨some c, some t, some d⟩) false) false⟩,
         ?_, rfl, ?_, ?_, ?_, ?_, ?_⟩
  · simp [processCrimeQuery, hc, hw, hud]
  · cases c <;> cases t <;> cases d <;> decide
  · cases c <;> cases t <;> cases d <;> decide
  · cases c <;> cases t <;> cases d <;> decide
  · cases c <;> cases t <;> cases d <;> intro hne <;> first | (exact absurd rfl hne) | decide
  · cases c <;> cases t <;> cases d <;> decide

/-- C2 witness: the amended theorem evaluated with time and date missing:
the enumeration names both, and both shown examples are time examples. -/
theorem processCrimeQuery_missingInfo_witness :
    ∃ fu : FollowUp,
      (processCrimeQuery cmQuarter
          { is_crime_prediction_query := fun _ => true
            extract_parameters := fun _ =>
              { complete := some false, is_weekly_forecast := some false,
                using_default := some (.ofFlags ⟨some false, some true, some true⟩),
                date := "", time := 0, longitude := 0, latitude := 0 } } "q").2.follow_up = some fu
      ∧ fu.missing_info = missingInfoOf (.ofFlags ⟨some false, some true, some true⟩) false
      ∧ ("location coordinates" ∈ fu.missing_info ↔ false = true)
      ∧ ("time" ∈ fu.missing_info ↔ true = true)
      ∧ ("date" ∈ fu.missing_info ↔ true = true)
      ∧ (fu.missing_info ≠ [] →
          fu.question =
            "To predict crime risk, I need more information about: "
              ++ String.intercalate ", " fu.missing_info
              ++ ". Please provide these details. For example: "
              ++ String.intercalate " or " ((examplesOf fu.missing_info).take 2))
      ∧ ((examplesOf fu.missing_info).take 2 =
            if false then [locExample1, locExample2]
            else if true then [timeExample1, timeExample2]
            else if true then [dateExample1, dateExample2]
            else []) :=
  processCrimeQuery_missingInfo cmQuarter
    { is_crime_prediction_query := fun _ => true
      extract_parameters := fun _ =>
        { complete := some false, is_weekly_forecast := some false,
          using_default := some (.ofFlags ⟨some false, some true, some true⟩),
          date := "", time := 0, longitude := 0, latitude := 0 } } "q"
    false true true rfl rfl rfl

end RagVerify

namespace RagVerify

/-! ### C3: weekly queries require only location -/

/-- On a weekly request, the missing list is at most the single location
item: the time/date appends are guarded by `not is_weekly_forecast`. -/
theorem missingInfoOf_weekly (ud : UsingDefault) :
    missingInfoOf ud true = [] ∨ missingInfoOf ud true = ["location coordinates"] := by
  rcases ud with b | f
  · cases b <;> simp [missingInfoOf]
  · rcases hcb : f.coordinates.getD false <;> simp [missingInfoOf, hcb]

/-- C3: for a query extracted with `isWeeklyForecast = true`, any emitted
missing-information result names at most the location (never time or date,
even when those are flagged absent), and when the location is missing the
question is the canned weekly clarification — whose text carries the
location example both as a place name ("downtown Chicago") and in
coordinate form ("41.8781, -87.6298"). -/
theorem processCrimeQuery_weekly_location_only (cm : CrimeModel) (qp : QueryProcessor)
    (q : String)
    (hw : (qp.extract_parameters q).is_weekly_forecast = some true) :
    ∀ fu : FollowUp, (processCrimeQuery cm qp q).2.follow_up = some fu →
      (fu.missing_info = [] ∨ fu.missing_info = ["location coordinates"])
      ∧ (fu.missing_info = ["location coordinates"] → fu.question = weeklyLocationQuestion)
      ∧ containsSubstr weeklyLocationQuestion "downtown Chicago" = true
      ∧ containsSubstr weeklyLocationQuestion "41.8781, -87.6298" = true := by
  intro fu h
  cases hb : (qp.extract_parameters q).complete.getD false
  · -- incomplete branch: the follow-up is built from missingInfoOf _ true
    simp only [processCrimeQuery, hw, hb] at h
    simp at h
    subst h
    refine ⟨missingInfoOf_weekly _, ?_, by decide, by decide⟩
    intro hmi
    have hM : missingInfoOf ((qp.extract_parameters q).using_default.getD
        (.ofFlags ⟨none, none, none⟩)) true = ["location coordinates"] := hmi
    show followUpQuestionOf (missingInfoOf ((qp.extract_parameters q).using_default.getD
        (.ofFlags ⟨none, none, none⟩)) true) true = weeklyLocationQuestion
    rw [hM]
    decide
  · -- complete branch with weekly flag: no follow-up is emitted
    simp [processCrimeQuery, hw, hb] at h

/-- C3 witness: a weekly query with every `using_default` flag set still
yields `missing_info = ["location coordinates"]` and the canned weekly
question. -/
theorem processCrimeQuery_weekly_witness :
    (⟨["location coordinates"],
        followUpQuestionOf ["location coordinates"] true⟩ : FollowUp).missing_info = []
      ∨ (⟨["location coordinates"],
          followUpQuestionOf ["location coordinates"] true⟩ : FollowUp).missing_info
          = ["location coordinates"] :=
  (processCrimeQuery_weekly_location_only cmQuarter
    { is_crime_prediction_query := fun _ => true
      extract_parameters := fun _ =>
        { complete := some false, is_weekly_forecast := some true,
          using_default := some (.ofFlags ⟨some true, some true, some true⟩),
          date := "", time := 0, longitude := 0, latitude := 0 } } "q" rfl
    ⟨["location coordinates"], followUpQuestionOf ["location coordinates"] true⟩ rfl).1

end RagVerify

namespace RagVerify

/-! ### C4: the exact oracle probability flows into explanation and prompt -/

/-- C4: for a complete point query whose oracle call returns probability
`p`, the result carries exactly `p` (never rescaled or overridden), the
(spec-modelled) explanation restates exactly `p`'s percentage, and
`format_for_llm` renders exactly `"Crime probability: {p*100:.1f}%"` from
that same `p`, followed by the explanation and the preserve-the-exact-value
instruction block. -/
theorem formatForLlm_exact_probability (qp : QueryProcessor) (q : String) (p : Rat)
    (pred : String → Nat → Rat → Rat → Except String Rat)
    (hc : (qp.extract_parameters q).complete = some true)
    (hw : (qp.extract_parameters q).is_weekly_forecast = some false)
    (hp : pred (qp.extract_parameters q).date (qp.extract_parameters q).time
            (qp.extract_parameters q).longitude (qp.extract_parameters q).latitude = .ok p) :
    (processCrimeQuery ⟨pred, generateExplanationSpec⟩ qp q).2.probability = some p
    ∧ (processCrimeQuery ⟨pred, generateExplanationSpec⟩ qp q).2.explanation =
        some ("Crime probability: " ++ formatFixed1 (p * 100) ++ "%.")
    ∧ formatForLlm (processCrimeQuery ⟨pred, generateExplanationSpec⟩ qp q).2 =
        contextHeader
          ++ "Crime probability: " ++ formatFixed1 (p * 100) ++ probabilityImportantSuffix
          ++ ("Crime probability: " ++ formatFixed1 (p * 100) ++ "%.") ++ "\n\n"
          ++ importantInstructions := by
  have hres : (processCrimeQuery ⟨pred, generateExplanationSpec⟩ qp q).2 =
      { type := "crime_prediction", complete := true, params := qp.extract_parameters q,
        probability := some p,
        explanation := some (generateExplanationSpec p (qp.extract_parameters q)) } := by
    simp [processCrimeQuery, hc, hw, hp]
  rw [hres]
  refine ⟨rfl, rfl, ?_⟩
  simp [formatForLlm, generateExplanationSpec, contextHeader]

/-- C4 witness: a concrete oracle returning 1/4 renders 25.0 percent both
in the explanation and in the formatted prompt. -/
theorem formatForLlm_exact_probability_witness :
    (processCrimeQuery ⟨fun _ _ _ _ => .ok (1/4), generateExplanationSpec⟩ qpComplete
        "Is it safe at 41.8781, -87.6298 tonight?").2.probability = some (1/4)
    ∧ (processCrimeQuery ⟨fun _ _ _ _ => .ok (1/4), generateExplanationSpec⟩ qpComplete
        "Is it safe at 41.8781, -87.6298 tonight?").2.explanation =
        some ("Crime probability: " ++ formatFixed1 ((1/4) * 100) ++ "%.")
    ∧ formatForLlm (processCrimeQuery ⟨fun _ _ _ _ => .ok (1/4), generateExplanationSpec⟩
          qpComplete "Is it safe at 41.8781, -87.6298 tonight?").2 =
        contextHeader
          ++ "Crime probability: " ++ formatFixed1 ((1/4) * 100) ++ probabilityImportantSuffix
          ++ ("Crime probability: " ++ formatFixed1 ((1/4) * 100) ++ "%.") ++ "\n\n"
          ++ importantInstructions :=
  formatForLlm_exact_probability qpComplete "Is it safe at 41.8781, -87.6298 tonight?"
    (1/4) (fun _ _ _ _ => .ok (1/4)) rfl rfl rfl

/-! ### C5: oracle failure yields a structured error result -/

/-- C5: whenever the oracle raises while computing a point prediction, the
orchestrator still returns `(True, result)` for that turn with
`error` set to the exception's message and `complete = False` — and with
no probability, explanation, forecast flag or follow-up fabricated; the
exception is never propagated (the embedding is a total function). -/
theorem processCrimeQuery_oracle_error (cm : CrimeModel) (qp : QueryProcessor) (q : String)
    (e : String)
    (hc : (qp.extract_parameters q).complete = some true)
    (hw : (qp.extract_parameters q).is_weekly_forecast = some false)
    (he : cm.predict_crime_probability (qp.extract_parameters q).date
            (qp.extract_parameters q).time (qp.extract_parameters q).longitude
            (qp.extract_parameters q).latitude = .error e) :
    processCrimeQuery cm qp q =
      (true,
        { type := "crime_prediction", complete := false, params := qp.extract_parameters q,
          weekly_forecast := none, probability := none, explanation := none,
          error := some e, follow_up := none }) := by
  simp [processCrimeQuery, hc, hw, he]

/-- C5 witness: a concrete always-raising oracle produces the structured
error result for a concrete query. -/
theorem processCrimeQuery_oracle_error_witness :
    processCrimeQuery ⟨fun _ _ _ _ => .error "Model prediction failed", generateExplanationSpec⟩
        qpComplete "Is it safe at 41.8781, -87.6298 tonight?" =
      (true,
        { type := "crime_prediction", complete := false,
          params := qpComplete.extract_parameters "Is it safe at 41.8781, -87.6298 tonight?",
          weekly_forecast := none, probability := none, explanation := none,
          error := some "Model prediction failed", follow_up := none }) :=
  processCrimeQuery_oracle_error
    ⟨fun _ _ _ _ => .error "Model prediction failed", generateExplanationSpec⟩
    qpComplete "Is it safe at 41.8781, -87.6298 tonight?" "Model prediction failed"
    rfl rfl rfl

end RagVerify

namespace RagVerify

/-! ### C6: the context merge policy (spec-modelled) -/

/-- C6: for every field of a `ParameterSet` and every turn, the merge
behaves as: a non-absent newly extracted value overwrites the remembered
one; an omitted field retains the remembered value exactly when the turn
is a follow-up, and resolves to absent on a non-follow-up turn; and
merging an entirely empty new set under follow-up classification yields
the remembered set unchanged. -/
theorem merge_policy (n o : ParameterSet) :
    (∀ fu v, n.latitude = some v → (merge n o fu).latitude = some v)
    ∧ (n.latitude = none → (merge n o true).latitude = o.latitude
        ∧ (merge n o false).latitude = none)
    ∧ (∀ fu v, n.longitude = some v → (merge n o fu).longitude = some v)
    ∧ (n.longitude = none → (merge n o true).longitude = o.longitude
        ∧ (merge n o false).longitude = none)
    ∧ (∀ fu v, n.placeName = some v → (merge n o fu).placeName = some v)
    ∧ (n.placeName = none → (merge n o true).placeName = o.placeName
        ∧ (merge n o false).placeName = none)
    ∧ (∀ fu v, n.date = some v → (merge n o fu).date = some v)
    ∧ (n.date = none → (merge n o true).date = o.date
        ∧ (merge n o false).date = none)
    ∧ (∀ fu v, n.time = some v → (merge n o fu).time = some v)
    ∧ (n.time = none → (merge n o true).time = o.time
        ∧ (merge n o false).time = none)
    ∧ (∀ fu v, n.isWeeklyForecast = some v → (merge n o fu).isWeeklyForecast = some v)
    ∧ (n.isWeeklyForecast = none → (merge n o true).isWeeklyForecast = o.isWeeklyForecast
        ∧ (merge n o false).isWeeklyForecast = none)
    ∧ (∀ fu v, n.hourFilter = some v → (merge n o fu).hourFilter = some v)
    ∧ (n.hourFilter = none → (merge n o true).hourFilter = o.hourFilter
        ∧ (merge n o false).hourFilter = none)
    ∧ merge emptyParameterSet o true = o := by
  refine ⟨?_, ?_, ?_, ?_, ?_, ?_, ?_, ?_, ?_, ?_, ?_, ?_, ?_, ?_, ?_⟩
  all_goals first
    | (intro fu v h; simp [merge, mergeField, h])
    | (intro h; exact ⟨by simp [merge, mergeField, h], by simp [merge, mergeField, h]⟩)
    | rfl

/-- The remembered set of the spec's §8 follow-up scenario. -/
def rememberedDemo : ParameterSet :=
  { latitude := some (418781/10000), longitude := some (-876298/10000),
    placeName := none, date := some "Thursday", time := some 22,
    isWeeklyForecast := none, hourFilter := none }

/-- A follow-up turn supplying only a new date. -/
def newDateOnly : ParameterSet :=
  { latitude := none, longitude := none, placeName := none,
    date := some "Friday", time := none, isWeeklyForecast := none, hourFilter := none }

/-- C6 witness: on the spec's §8 scenario, a follow-up turn with only a new
date overwrites the date, inherits the remembered location on a follow-up
turn and drops it on a non-follow-up turn; and the empty set merged under
follow-up leaves the remembered set unchanged. -/
theorem merge_policy_witness :
    (merge newDateOnly rememberedDemo true).date = some "Friday"
    ∧ ((merge newDateOnly rememberedDemo true).latitude = rememberedDemo.latitude
        ∧ (merge newDateOnly rememberedDemo false).latitude = none)
    ∧ merge emptyParameterSet rememberedDemo true = rememberedDemo :=
  ⟨(merge_policy newDateOnly rememberedDemo).2.2.2.2.2.2.1 true "Friday" rfl,
   (merge_policy newDateOnly rememberedDemo).2.1 rfl,
   (merge_policy newDateOnly rememberedDemo).2.2.2.2.2.2.2.2.2.2.2.2.2.2⟩

/-! ### C9 and C10: initialization -/

/-- C9: `RAGManager` construction never propagates an exception (the
embedding of `_initialize_components` is a total function): whether the
model file exists at none of the search locations or loading it raises,
`crime_model` is `None`, the query processor is still constructed, and the
manager remains usable. -/
theorem initializeComponents_total (env : InitEnv) :
    (initializeComponents env).query_processor = some env.queryProcessor
    ∧ (selectedModelPath env = none →
        initializeComponents env =
          { crime_model := none, query_processor := some env.queryProcessor })
    ∧ (∀ p e, selectedModelPath env = some p → env.loadModel p = .error e →
        initializeComponents env =
          { crime_model := none, query_processor := some env.queryProcessor }) := by
  refine ⟨?_, ?_, ?_⟩
  · unfold initializeComponents
    rcases h : selectedModelPath env with _ | p
    · rfl
    · rcases hl : env.loadModel p with m | e <;> simp [hl]
  · intro h
    unfold initializeComponents
    rw [h]
  · intro p e hp he
    unfold initializeComponents
    rw [hp]
    simp [he]

/-- A query processor used by the initialization witnesses. -/
def qpInert : QueryProcessor :=
  { is_crime_prediction_query := fun _ => false
    extract_parameters := fun _ =>
      { complete := none, is_weekly_forecast := none, using_default := none,
        date := "", time := 0, longitude := 0, latitude := 0 } }

/-- C9 witness: with no file present anywhere and a loader that would
raise, initialization still yields a usable manager state with
`crime_model = None`. -/
theorem initializeComponents_total_witness :
    initializeComponents
        { cwd := "C:/app", grandparent := "C:/",
          config_model_path := none,
          pathExists := fun _ => false,
          loadModel := fun _ => .error "corrupt artifact",
          queryProcessor := qpInert } =
      { crime_model := none, query_processor := some qpInert } :=
  (initializeComponents_total
    { cwd := "C:/app", grandparent := "C:/",
      config_model_path := none,
      pathExists := fun _ => false,
      loadModel := fun _ => .error "corrupt artifact",
      queryProcessor := qpInert }).2.1 rfl

/-- C10: a configured `model.crime_model_path` is inserted at the front of
the search list, ahead of all four well-known locations — so when it
exists it is the path selected and loaded, regardless of which well-known
files exist; otherwise the first existing well-known path (in list order)
is selected; the selected path's load result is what initialization stores,
once. -/
theorem configPath_precedence (env : InitEnv) (s : String)
    (hcfg : env.config_model_path = some s) (hne : (s == "") = false) :
    possiblePaths env = s :: defaultPaths env
    ∧ (env.pathExists s = true → selectedModelPath env = some s)
    ∧ (env.pathExists s = false →
        selectedModelPath env = (defaultPaths env).find? env.pathExists)
    ∧ (∀ m, env.pathExists s = true → env.loadModel s = .ok m →
        (initializeComponents env).crime_model = some m) := by
  have hpaths : possiblePaths env = s :: defaultPaths env := by
    simp [possiblePaths, truthyPath, hcfg, hne]
  refine ⟨hpaths, ?_, ?_, ?_⟩
  · intro hex
    simp [selectedModelPath, hpaths, List.find?, hex]
  · intro hex
    simp [selectedModelPath, hpaths, List.find?, hex]
  · intro m hex hload
    have hsel : selectedModelPath env = some s := by
      simp [selectedModelPath, hpaths, List.find?, hex]
    unfold initializeComponents
    rw [hsel]
    simp [hload]

/-- C10 witness: with a configured path present on disk alongside a
well-known file, the configured path wins and its model is the one
stored. -/
theorem configPath_precedence_witness :
    possiblePaths
        { cwd := "C:/app", grandparent := "C:/",
          config_model_path := some "D:/custom/model.pkl",
          pathExists := fun _ => true,
          loadModel := fun p => .ok ⟨fun _ _ _ _ => .ok 0, fun _ _ => p⟩,
          queryProcessor := qpInert } =
      "D:/custom/model.pkl" :: defaultPaths
        { cwd := "C:/app", grandparent := "C:/",
          config_model_path := some "D:/custom/model.pkl",
          pathExists := fun _ => true,
          loadModel := fun p => .ok ⟨fun _ _ _ _ => .ok 0, fun _ _ => p⟩,
          queryProcessor := qpInert }
    ∧ selectedModelPath
        { cwd := "C:/app", grandparent := "C:/",
          config_model_path := some "D:/custom/model.pkl",
          pathExists := fun _ => true,
          loadModel := fun p => .ok ⟨fun _ _ _ _ => .ok 0, fun _ _ => p⟩,
          queryProcessor := qpInert } = some "D:/custom/model.pkl" :=
  ⟨(configPath_precedence _ "D:/custom/model.pkl" rfl rfl).1,
   (configPath_precedence _ "D:/custom/model.pkl" rfl rfl).2.1 rfl⟩

end RagVerify
